import Mathlib

/-!
Shallow embedding of the streaming triage pipeline of
`src/main.py` (Agentic-AI-for-healthcare): the resource-log reader
`get_latest_resources`, the guideline loader `get_guidelines`, the
triage step `triage_patient` with its rule-based fallback branch, and
the ingestion loop `run`.

Python values parsed by `json.loads` are modelled by the `Json`
inductive; Python dictionaries by association lists; file lines by
inductives classifying what `json.loads` does to them; the external
reasoning call by a parameter giving, for each call, either an
exception (any failure inside the `try` block) or a parsed response.
Exceptions that the source code does not catch are modelled with
`Except`.
-/

namespace Triage

/-- A JSON value as returned by the Python function `json.loads`. -/
inductive Json where
  | null
  | bool (b : Bool)
  | num (n : Int)
  | str (s : String)
  | arr (xs : List Json)
  | obj (fields : List (String × Json))

/-- Python dictionary lookup `d[k]` as `Option`: `d.get(k)` without default. -/
def dictGet (d : List (String × Json)) (k : String) : Option Json :=
  (d.find? (fun kv => kv.1 == k)).map (fun kv => kv.2)

/-- Python `repr` of a parsed JSON value (string-escape details elided;
no theorem depends on the `arr`/`obj` rendering). -/
def pyRepr : Json → String
  | .null => "None"
  | .bool true => "True"
  | .bool false => "False"
  | .num n => toString n
  | .str s => "\x27" ++ s ++ "\x27"
  | .arr xs => "[" ++ String.intercalate ", " (xs.attach.map (fun x => pyRepr x.1)) ++ "]"
  | .obj kvs => "\x7b" ++ String.intercalate ", "
      (kvs.attach.map (fun kv => "\x27" ++ kv.1.1 ++ "\x27: " ++ pyRepr kv.1.2)) ++ "\x7d"
decreasing_by
  · simp_wf
    have h := List.sizeOf_lt_of_mem x.2
    omega
  · simp_wf
    have h1 := List.sizeOf_lt_of_mem kv.2
    have h2 : sizeOf kv.1.2 < sizeOf kv.1 := by
      obtain ⟨⟨k, v⟩, hm⟩ := kv
      simp
    omega

/-- Python `str()` / f-string interpolation of a parsed JSON value. -/
def pyStr : Json → String
  | .str s => s
  | j => pyRepr j

/-- Python `str.lower`, restricted as the source uses it (ASCII data). -/
def pyLower (s : String) : String := String.mk (s.toList.map Char.toLower)

/-- Python string slicing `s[:n]` (by code points). -/
def pyTake (s : String) (n : Nat) : String := String.mk (s.toList.take n)

/-- The Python substring test `needle in hay`. -/
def strContains (hay needle : String) : Bool :=
  (List.range (hay.length + 1)).any
    (fun i => decide (((hay.toList.drop i).take needle.length) = needle.toList))

/-- Python truthiness test `not api_key` for `os.environ.get` results:
true when the variable is unset or the empty string. -/
def pyFalsyStr : Option String → Bool
  | none => true
  | some s => s == ""

/-- Python `str.lower` applied to a JSON value: Python raises
`AttributeError` (modelled as `.error`) unless the value is a string. -/
def pyStrLower : Json → Except Unit String
  | .str s => .ok (pyLower s)
  | _ => .error ()

/-- Outcome of the guarded region of the `try` block in `triage_patient`
(the chat-completion call followed by `json.loads(content)`): either
some exception is raised, or the response content parses to a JSON
value. -/
inductive CallOutcome where
  | raises (errMsg : String)
  | returns (j : Json)

/-- The prompt f-string of `triage_patient` (src/main.py lines 33-61).
Evaluating it calls `resources.get(...)`, which raises `AttributeError`
(modelled as `.error`) when the resources value is not a dictionary. -/
def buildPrompt (patient : List (String × Json)) (guidelines : String)
    (resources : Json) : Except Unit String :=
  match resources with
  | .obj r => .ok ("\n    You are a Live AI Healthcare Triage Agent.\n    \n    GUIDELINES:\n    "
      ++ guidelines
      ++ "\n    \n    CURRENT RESOURCES:\n    ICU Beds Available: "
      ++ pyStr ((dictGet r "icu_beds_available").getD (.str "Unknown"))
      ++ "\n    Doctors: "
      ++ pyStr ((dictGet r "doctors_on_call").getD (.arr []))
      ++ "\n    Nurses: "
      ++ pyStr ((dictGet r "nurses_available").getD (.str "Unknown"))
      ++ "\n    \n    PATIENT:\n    ID: "
      ++ pyStr ((dictGet patient "patient_id").getD .null)
      ++ "\n    Name: "
      ++ pyStr ((dictGet patient "name").getD .null)
      ++ "\n    Symptoms: "
      ++ pyStr ((dictGet patient "symptoms").getD .null)
      ++ "\n    Vitals: "
      ++ pyStr ((dictGet patient "vitals").getD .null)
      ++ "\n    Labs: "
      ++ pyStr ((dictGet patient "labs").getD .null)
      ++ "\n    \n    TASK:\n    Perform triage, resource allocation, and alerting based on the guidelines and resources.\n    \n    OUTPUT FORMAT (Strict JSON):\n    \x7b\n        \"Patient Summary\": \x7b ... \x7d,\n        \"Triage Decision\": \x7b \"Priority Level\": \"...\", \"Reasoning\": \"...\" \x7d,\n        \"Resource Decision\": \x7b \"ICU Required\": \"...\", \"ICU Assigned\": \"...\", \"Doctor Assigned\": \"...\", \"Nurse Assigned\": \"...\" \x7d,\n        \"Alerts\": \x7b \"Alert Level\": \"...\", \"Alert Message\": \"...\" \x7d\n    \x7d\n    ")
  | _ => .error ()

/-- The rule-based keyword cascade of the fallback branch
(src/main.py lines 86-96), applied to the lowercased symptoms string;
yields `(priority, reasoning, icu_req)`. -/
def fallbackRules (symptoms : String) : String × String × String :=
  if strContains symptoms "chest pain" || strContains symptoms "severe"
      || strContains symptoms "difficulty breathing" then
    ("Critical", "Fallback: Critical keywords detected in symptoms.", "Yes")
  else if strContains symptoms "broken" || strContains symptoms "fracture" then
    ("Medium", "Fallback: Potential fracture detected.", "No")
  else
    ("Low", "Fallback: Minor symptoms detected.", "No")

/-- The decision dictionary returned by the fallback branch
(src/main.py lines 98-117), given the lowercased symptoms string the
keyword cascade ran on. -/
def fallbackJson (patient : List (String × Json)) (errMsg : String)
    (symptoms : String) : Json :=
  .obj [
    ("Patient Summary", .obj [
      ("ID", (dictGet patient "patient_id").getD .null),
      ("Name", (dictGet patient "name").getD .null)]),
    ("Triage Decision", .obj [
      ("Priority Level", .str (fallbackRules symptoms).1),
      ("Reasoning", .str ((fallbackRules symptoms).2.1
        ++ " (Auto-generated due to LLM Error: " ++ pyTake errMsg 50 ++ "...)"))]),
    ("Resource Decision", .obj [
      ("ICU Required", .str (fallbackRules symptoms).2.2),
      ("ICU Assigned", .str "Pending Check"),
      ("Doctor Assigned", .str "On Call"),
      ("Nurse Assigned", .str "Next Available")]),
    ("Alerts", .obj [
      ("Alert Level", .str (if (fallbackRules symptoms).1 == "Critical"
        then "Urgent" else "Normal")),
      ("Alert Message", .str ("System Alert: Fallback mode used for "
        ++ pyStr ((dictGet patient "name").getD .null)))])]

/-- The fallback branch of `triage_patient` (src/main.py lines 85-117):
lowercase the symptoms field (empty-string default) and build the rule-based
record. Fails (Python `AttributeError` from `.lower()`) exactly when
the `symptoms` field is present but not a string. -/
def fallbackRecord (patient : List (String × Json)) (errMsg : String) :
    Except Unit Json :=
  match pyStrLower ((dictGet patient "symptoms").getD (.str "")) with
  | .error e => .error e
  | .ok symptoms => .ok (fallbackJson patient errMsg symptoms)

/-- The record returned when `OPENAI_API_KEY` is unset
(src/main.py line 65). -/
def missingKeyRecord (patient : List (String × Json)) : Json :=
  .obj [("error", .str "OPENAI_API_KEY not set"),
        ("patient_id", (dictGet patient "patient_id").getD .null)]

/-- `triage_patient` (src/main.py lines 32-117). The external reasoning
service is modelled by `call`, giving the outcome of the guarded call
for the given prompt. The prompt f-string is evaluated first; a falsy
key then short-circuits to the error record; otherwise the call
outcome either is returned as parsed or routes to the fallback branch
with the exception text. Uncaught exceptions appear as `.error`. -/
def triage_patient (patient : List (String × Json)) (guidelines : String)
    (resources : Json) (apiKey : Option String)
    (call : String → CallOutcome) : Except Unit Json :=
  match buildPrompt patient guidelines resources with
  | .error e => .error e
  | .ok prompt =>
    if pyFalsyStr apiKey then
      .ok (missingKeyRecord patient)
    else
      match call prompt with
      | .returns j => .ok j
      | .raises errMsg => fallbackRecord patient errMsg

/-- A line of the resources log, classified by what `line.strip()` and
`json.loads` do to it: blank, non-blank but unparsable, or parsing to a
JSON value. -/
inductive RLine where
  | blank
  | invalid (raw : String)
  | valid (j : Json)

/-- The scan loop of `get_latest_resources` (src/main.py lines 19-21):
`last_line` ends up holding the last non-blank line. -/
def lastNonBlank (lines : List RLine) : Option RLine :=
  lines.foldl (fun acc l => match l with | .blank => acc | _ => some l) none

/-- `get_latest_resources` (src/main.py lines 14-24). The log is `none`
when the file does not exist. `json.loads` of an unparsable stored line
raises `json.JSONDecodeError`, modelled as `.error`. -/
def get_latest_resources (log : Option (List RLine)) : Except Unit Json :=
  match log with
  | none => .ok (.obj [])
  | some lines =>
    match lastNonBlank lines with
    | none => .ok (.obj [])
    | some (.valid j) => .ok j
    | some (.invalid _) => .error ()
    | some .blank => .error ()

/-- `get_guidelines` (src/main.py lines 26-30): the file text, or the
empty string when the file does not exist. -/
def get_guidelines (file : Option String) : String := file.getD ""

/-- A line of the patients log, classified by what `json.loads` does to
it: blank (skipped before parsing), unparsable (`json.JSONDecodeError`,
caught), parsing to a non-object (`patient.get` then raises an uncaught
`AttributeError`), or parsing to a JSON object. -/
inductive PLine where
  | blank
  | invalid (raw : String)
  | nonRecord (j : Json)
  | record (fields : List (String × Json))

/-- The run-wide environment of `run` (src/main.py lines 119-165): the
`OPENAI_API_KEY` variable, the resources log, the guidelines file, and
the behaviour of the reasoning service for the n-th processed record. -/
structure Config where
  apiKey : Option String
  resourceLog : Option (List RLine)
  guidelinesFile : Option String
  svc : Nat → String → CallOutcome

/-- Observable state of the ingestion loop: the decision records
appended to the output log so far (in order), and whether an uncaught
exception has terminated the loop. -/
structure RunState where
  output : List Json
  crashed : Bool

/-- One iteration of the `while True` loop of `run` (src/main.py lines
140-165) on a non-empty line. `json.JSONDecodeError` — raised either by
`json.loads(line)` or by `get_latest_resources` — is caught and skips
the line; any other exception terminates the loop. -/
def processLine (cfg : Config) (st : RunState) (l : PLine) : RunState :=
  if st.crashed then st else
  match l with
  | .blank => st
  | .invalid _ => st
  | .nonRecord _ => { st with crashed := true }
  | .record p =>
    match get_latest_resources cfg.resourceLog with
    | .error _ => st
    | .ok resources =>
      match triage_patient p (get_guidelines cfg.guidelinesFile) resources
          cfg.apiKey (cfg.svc st.output.length) with
      | .ok decision => { st with output := st.output ++ [decision] }
      | .error _ => { st with crashed := true }

/-- The ingestion loop of `run` over a finite portion of the patients
log, starting from an empty output log. -/
def runPipeline (cfg : Config) (lines : List PLine) : RunState :=
  lines.foldl (processLine cfg) ⟨[], false⟩

/-- Lookup of `j[sect][key]` in a decision record. -/
def decisionField (j : Json) (sect key : String) : Option Json :=
  match j with
  | .obj fields =>
    match dictGet fields sect with
    | some (.obj s) => dictGet s key
    | _ => none
  | _ => none

/-- The priority level of a decision record. -/
def priorityOf (j : Json) : Option Json := decisionField j "Triage Decision" "Priority Level"

/-- The reasoning text of a decision record. -/
def reasoningOf (j : Json) : Option Json := decisionField j "Triage Decision" "Reasoning"

/-- The ICU-required field of a decision record. -/
def icuRequiredOf (j : Json) : Option Json := decisionField j "Resource Decision" "ICU Required"

/-- The alert level of a decision record. -/
def alertLevelOf (j : Json) : Option Json := decisionField j "Alerts" "Alert Level"

/-- The alert message of a decision record. -/
def alertMessageOf (j : Json) : Option Json := decisionField j "Alerts" "Alert Message"

/-- The TriageDecision schema demanded of the primary reasoning path by
the OUTPUT FORMAT block of the prompt (src/main.py lines 54-60): the four
sections with their required keys. -/
def hasTriageSchema (j : Json) : Bool :=
  match j with
  | .obj fields =>
    (dictGet fields "Patient Summary").isSome
    && (match dictGet fields "Triage Decision" with
        | some (.obj td) => (dictGet td "Priority Level").isSome
            && (dictGet td "Reasoning").isSome
        | _ => false)
    && (match dictGet fields "Resource Decision" with
        | some (.obj rd) => (dictGet rd "ICU Required").isSome
            && (dictGet rd "ICU Assigned").isSome
            && (dictGet rd "Doctor Assigned").isSome
            && (dictGet rd "Nurse Assigned").isSome
        | _ => false)
    && (match dictGet fields "Alerts" with
        | some (.obj al) => (dictGet al "Alert Level").isSome
            && (dictGet al "Alert Message").isSome
        | _ => false)
  | _ => false

/-- A decision record bears the fallback marker when its reasoning text
contains the `Fallback:` tag that every fallback reasoning string
carries (src/main.py lines 87, 92, 96). -/
def bearsFallbackMarker (j : Json) : Bool :=
  match reasoningOf j with
  | some (.str r) => strContains r "Fallback:"
  | _ => false

/-- The fallback decision record, with the impossible-by-hypothesis
error case mapped to `null` (used to phrase concrete test vectors). -/
def fallbackOutput (patient : List (String × Json)) (errMsg : String) : Json :=
  match fallbackRecord patient errMsg with
  | .ok r => r
  | .error _ => .null

/-- A patient dictionary whose `symptoms` field the fallback branch can
lowercase: absent, or present as a string. -/
def symptomsOk (patient : List (String × Json)) : Prop :=
  dictGet patient "symptoms" = none
    ∨ ∃ s, dictGet patient "symptoms" = some (Json.str s)

/-- The decision the loop emits for the `k`-th processed record, given
the resources value in force for the run. -/
def decisionAt (cfg : Config) (res : Json) (k : Nat)
    (p : List (String × Json)) : Json :=
  match triage_patient p (get_guidelines cfg.guidelinesFile) res cfg.apiKey
      (cfg.svc k) with
  | .ok d => d
  | .error _ => .null

/-- One decision per record line, in reading order, numbering records
from `k`: the output log the loop is specified to produce. -/
def expectedOutput (cfg : Config) (res : Json) (k : Nat) :
    List PLine → List Json
  | [] => []
  | PLine.record p :: ls => decisionAt cfg res k p :: expectedOutput cfg res (k + 1) ls
  | PLine.blank :: ls => expectedOutput cfg res k ls
  | PLine.invalid _ :: ls => expectedOutput cfg res k ls
  | PLine.nonRecord _ :: ls => expectedOutput cfg res k ls

/-! ### Concrete test vectors -/

def patientSevere : List (String × Json) :=
  [("patient_id", .str "P001"), ("name", .str "Alice"),
   ("symptoms", .str "SEVERE headache, broken arm")]

def patientBroken : List (String × Json) :=
  [("patient_id", .str "P002"), ("name", .str "Bob"),
   ("symptoms", .str "Broken thumb")]

def patientAsthma : List (String × Json) :=
  [("patient_id", .str "P003"), ("name", .str "Carol"),
   ("symptoms", .str "Asthma attack, difficulty breathing")]

def patientMild : List (String × Json) :=
  [("patient_id", .str "P004"), ("name", .str "Dan"),
   ("symptoms", .str "Mild cough")]

def patientPersevered : List (String × Json) :=
  [("patient_id", .str "P005"), ("name", .str "Erin"),
   ("symptoms", .str "Patient persevered through the night")]

/-- Two patients that agree on symptoms (and failure reason) but not on
name. -/
def patientAliceMild : List (String × Json) :=
  [("symptoms", .str "Mild cough"), ("name", .str "Alice")]

def patientBobMild : List (String × Json) :=
  [("symptoms", .str "Mild cough"), ("name", .str "Bob")]

/-- A patient carrying extra fields the fallback must ignore. -/
def patientExtra : List (String × Json) :=
  [("patient_id", .str "P009"), ("name", .str "Eve"),
   ("symptoms", .str "Mild cough"),
   ("vitals", .obj [("hr", .num 88)]), ("labs", .arr [.num 1, .num 2])]

/-- `patientExtra` stripped to the fields the fallback reads. -/
def patientPlain : List (String × Json) :=
  [("patient_id", .str "P009"), ("name", .str "Eve"),
   ("symptoms", .str "Mild cough")]

/-- A reasoning service that is unreachable on every call. -/
def svcDown : Nat → String → CallOutcome :=
  fun _ _ => .raises "Connection error: quota exceeded"

/-- A run with a configured credential and an unreachable service. -/
def cfgDown : Config := ⟨some "sk-test-key", none, none, svcDown⟩

/-- A resource log holding three valid snapshots followed by one
malformed line. -/
def resLog3 : List RLine :=
  [.valid (.obj [("icu_beds_available", .num 5)]),
   .valid (.obj [("icu_beds_available", .num 4)]),
   .valid (.obj [("icu_beds_available", .num 3)]),
   .invalid "not json"]

/-- The resource snapshot and configuration of a fully healthy run. -/
def resSnap : List (String × Json) := [("icu_beds_available", .num 2)]

def cfgLive : Config :=
  ⟨some "sk-test-key", some [RLine.valid (.obj resSnap)],
   some "Guidelines text", svcDown⟩

def linesLive : List PLine :=
  [PLine.record patientBroken, PLine.invalid "oops", PLine.record patientMild]

/-- A run whose resource log ends in a malformed line. -/
def cfgBadRes : Config :=
  ⟨some "sk-test-key", some [RLine.invalid "corrupt"], none, svcDown⟩

/-! ### Lemmas about the substring test -/

theorem strContains_iff (hay needle : String) :
    strContains hay needle = true ↔
      ∃ i, i < hay.length + 1
        ∧ (hay.toList.drop i).take needle.length = needle.toList := by
  unfold strContains
  rw [List.any_eq_true]
  constructor
  · rintro ⟨i, hi, hp⟩
    exact ⟨i, List.mem_range.mp hi, of_decide_eq_true hp⟩
  · rintro ⟨i, hi, hp⟩
    exact ⟨i, List.mem_range.mpr hi, decide_eq_true hp⟩

/-- A string occurring at the start is found by the substring test. -/
theorem strContains_pre (a b : String) : strContains (a ++ b) a = true := by
  rw [strContains_iff]
  refine ⟨0, by omega, ?_⟩
  show ((a ++ b).data.drop 0).take a.data.length = a.data
  rw [List.drop_zero, String.data_append, List.take_left]

/-- A string occurring at the end is found by the substring test. -/
theorem strContains_suf (a b : String) : strContains (a ++ b) b = true := by
  rw [strContains_iff]
  refine ⟨a.length, ?_, ?_⟩
  · rw [String.length_append]; omega
  · show ((a ++ b).data.drop a.data.length).take b.data.length = b.data
    rw [String.data_append, List.drop_left, List.take_length]

/-- The substring test survives appending on the right. -/
theorem strContains_ext (a c b : String) (h : strContains a b = true) :
    strContains (a ++ c) b = true := by
  rw [strContains_iff] at h ⊢
  obtain ⟨i, hi, hp⟩ := h
  refine ⟨i, ?_, ?_⟩
  · rw [String.length_append]; omega
  · have hl := congrArg List.length hp
    rw [List.length_take] at hl
    have hble : b.data.length ≤ (a.data.drop i).length :=
      hl ▸ Nat.min_le_right _ _
    show ((a ++ c).data.drop i).take b.data.length = b.data
    rw [String.data_append, List.drop_append_eq_append_drop,
      List.take_append_eq_append_take]
    have h0 : b.data.length - (a.data.drop i).length = 0 := by omega
    rw [h0, List.take_zero, List.append_nil]
    exact hp

/-! ### Shape lemmas for the fallback record -/

theorem priorityOf_fallbackJson (p : List (String × Json)) (e s : String) :
    priorityOf (fallbackJson p e s) = some (.str (fallbackRules s).1) := rfl

theorem reasoningOf_fallbackJson (p : List (String × Json)) (e s : String) :
    reasoningOf (fallbackJson p e s) = some (.str ((fallbackRules s).2.1
      ++ " (Auto-generated due to LLM Error: " ++ pyTake e 50 ++ "...)")) := rfl

theorem icuRequiredOf_fallbackJson (p : List (String × Json)) (e s : String) :
    icuRequiredOf (fallbackJson p e s) = some (.str (fallbackRules s).2.2) := rfl

theorem alertLevelOf_fallbackJson (p : List (String × Json)) (e s : String) :
    alertLevelOf (fallbackJson p e s)
      = some (.str (if (fallbackRules s).1 == "Critical" then "Urgent" else "Normal")) := rfl

theorem alertMessageOf_fallbackJson (p : List (String × Json)) (e s : String) :
    alertMessageOf (fallbackJson p e s)
      = some (.str ("System Alert: Fallback mode used for "
          ++ pyStr ((dictGet p "name").getD .null))) := rfl

theorem hasTriageSchema_fallbackJson (p : List (String × Json)) (e s : String) :
    hasTriageSchema (fallbackJson p e s) = true := rfl

/-- Every reasoning string the keyword cascade can produce starts with
the `Fallback:` tag. -/
theorem fallbackRules_reasoning_tag (s : String) :
    ∃ rest, (fallbackRules s).2.1 = "Fallback:" ++ rest := by
  unfold fallbackRules
  split
  · exact ⟨" Critical keywords detected in symptoms.", by decide⟩
  · split
    · exact ⟨" Potential fracture detected.", by decide⟩
    · exact ⟨" Minor symptoms detected.", by decide⟩

/-- The marker test only looks at the reasoning text. -/
theorem bearsFallbackMarker_eq (r : Json) (x : String)
    (h : reasoningOf r = some (.str x)) :
    bearsFallbackMarker r = strContains x "Fallback:" := by
  unfold bearsFallbackMarker
  rw [h]

/-- Every fallback record bears the fallback marker. -/
theorem bearsFallbackMarker_fallbackJson (p : List (String × Json)) (e s : String) :
    bearsFallbackMarker (fallbackJson p e s) = true := by
  rw [bearsFallbackMarker_eq _ _ (reasoningOf_fallbackJson p e s)]
  obtain ⟨rest, hr⟩ := fallbackRules_reasoning_tag s
  rw [hr]
  exact strContains_ext _ _ _ (strContains_ext _ _ _ (strContains_ext _ _ _
    (strContains_pre _ _)))

/-- On a patient whose symptoms field is absent or a string, the
fallback branch returns (never raises), and the record it returns is
the rule-based record for the lowercased symptoms text (the empty
string when the field is absent). -/
theorem fallbackRecord_ok (p : List (String × Json)) (e : String) :
    (dictGet p "symptoms" = none
      → fallbackRecord p e = .ok (fallbackJson p e ""))
    ∧ ∀ s, dictGet p "symptoms" = some (Json.str s)
      → fallbackRecord p e = .ok (fallbackJson p e (pyLower s)) := by
  constructor
  · intro hn
    unfold fallbackRecord
    rw [hn]
    show Except.ok (fallbackJson p e (pyLower "")) = _
    rw [show pyLower "" = "" from by decide]
  · intro s hs
    unfold fallbackRecord
    rw [hs]
    rfl

/-- The fallback branch never raises on a `symptomsOk` patient. -/
theorem fallbackRecord_isOk (p : List (String × Json)) (e : String)
    (h : symptomsOk p) : ∃ r, fallbackRecord p e = .ok r := by
  rcases h with hn | ⟨s, hs⟩
  · exact ⟨_, (fallbackRecord_ok p e).1 hn⟩
  · exact ⟨_, (fallbackRecord_ok p e).2 s hs⟩

/-- Whatever the fallback branch returns is a `fallbackJson` record. -/
theorem fallbackRecord_shape (p : List (String × Json)) (e : String) (r : Json)
    (h : fallbackRecord p e = .ok r) : ∃ s, r = fallbackJson p e s := by
  unfold fallbackRecord at h
  cases hs : pyStrLower ((dictGet p "symptoms").getD (.str "")) with
  | error u => rw [hs] at h; exact absurd h (by simp)
  | ok s =>
    rw [hs] at h
    exact ⟨s, (Except.ok.injEq _ _ ▸ h).symm⟩

/-- On a dictionary-shaped resources value, `triage_patient` never
raises when the symptoms field of the patient is absent or a string. -/
theorem triage_ok (p : List (String × Json)) (g : String)
    (r : List (String × Json)) (key : Option String)
    (call : String → CallOutcome) (hs : symptomsOk p) :
    ∃ d, triage_patient p g (.obj r) key call = .ok d := by
  cases hb : buildPrompt p g (.obj r) with
  | error u => exact absurd hb (by unfold buildPrompt; simp)
  | ok prompt =>
    by_cases hk : pyFalsyStr key = true
    · exact ⟨missingKeyRecord p, by unfold triage_patient; rw [hb]; simp [hk]⟩
    · rw [Bool.not_eq_true] at hk
      cases hcall : call prompt with
      | returns j =>
        exact ⟨j, by unfold triage_patient; rw [hb]; simp [hk, hcall]⟩
      | raises m =>
        obtain ⟨d, hd⟩ := fallbackRecord_isOk p m hs
        exact ⟨d, by unfold triage_patient; rw [hb]; simp [hk, hcall, hd]⟩

/-! ### Lemmas about the ingestion loop -/

theorem processLine_crashed (cfg : Config) (st : RunState) (l : PLine)
    (h : st.crashed = true) : processLine cfg st l = st := by
  unfold processLine
  rw [h]
  rfl

theorem foldl_crashed (cfg : Config) (ls : List PLine) (st : RunState)
    (h : st.crashed = true) : List.foldl (processLine cfg) st ls = st := by
  induction ls with
  | nil => rfl
  | cons l ls ih => rw [List.foldl_cons, processLine_crashed cfg st l h]; exact ih

/-- Each loop iteration either leaves the output log alone or appends
exactly the one decision obtained from `triage_patient`. -/
theorem processLine_cases (cfg : Config) (st : RunState) (l : PLine) :
    (processLine cfg st l).output = st.output
    ∨ ∃ p res d, l = PLine.record p
        ∧ get_latest_resources cfg.resourceLog = .ok res
        ∧ triage_patient p (get_guidelines cfg.guidelinesFile) res cfg.apiKey
            (cfg.svc st.output.length) = .ok d
        ∧ (processLine cfg st l).output = st.output ++ [d] := by
  unfold processLine
  split
  · exact Or.inl rfl
  · cases l with
    | blank => exact Or.inl rfl
    | invalid raw => exact Or.inl rfl
    | nonRecord j => exact Or.inl rfl
    | record p =>
      cases hres : get_latest_resources cfg.resourceLog with
      | error u => exact Or.inl (by simp)
      | ok res =>
        cases ht : triage_patient p (get_guidelines cfg.guidelinesFile) res
            cfg.apiKey (cfg.svc st.output.length) with
        | ok d => exact Or.inr ⟨p, res, d, rfl, rfl, ht, by simp [ht]⟩
        | error u => exact Or.inl (by simp [ht])

/-- Invariant propagation: if every decision `triage_patient` can
produce under the run configuration satisfies `P`, then every record
in the output log satisfies `P`. -/
theorem foldl_output_all {P : Json → Prop} (cfg : Config)
    (hP : ∀ (p : List (String × Json)) (n : Nat) (res d : Json),
      get_latest_resources cfg.resourceLog = .ok res →
      triage_patient p (get_guidelines cfg.guidelinesFile) res cfg.apiKey
        (cfg.svc n) = .ok d → P d) :
    ∀ (ls : List PLine) (st : RunState), (∀ d ∈ st.output, P d) →
      ∀ d ∈ (List.foldl (processLine cfg) st ls).output, P d := by
  intro ls
  induction ls with
  | nil => intro st h; exact h
  | cons l ls ih =>
    intro st h
    rw [List.foldl_cons]
    apply ih
    rcases processLine_cases cfg st l with hsame | ⟨p, res, d, _, hres, ht, happ⟩
    · rw [hsame]; exact h
    · rw [happ]
      intro x hx
      rcases List.mem_append.mp hx with hx | hx
      · exact h x hx
      · rw [List.mem_singleton.mp hx]
        exact hP p st.output.length res d hres ht

theorem processLine_output_mono (cfg : Config) (st : RunState) (l : PLine) :
    ∃ t, (processLine cfg st l).output = st.output ++ t := by
  rcases processLine_cases cfg st l with h | ⟨p, res, d, _, _, _, h⟩
  · exact ⟨[], by rw [h, List.append_nil]⟩
  · exact ⟨[d], h⟩

theorem foldl_output_mono (cfg : Config) (ls : List PLine) :
    ∀ st, ∃ t, (List.foldl (processLine cfg) st ls).output = st.output ++ t := by
  induction ls with
  | nil => intro st; exact ⟨[], by rw [List.append_nil]; rfl⟩
  | cons l ls ih =>
    intro st
    rw [List.foldl_cons]
    obtain ⟨t1, h1⟩ := processLine_output_mono cfg st l
    obtain ⟨t2, h2⟩ := ih (processLine cfg st l)
    exact ⟨t1 ++ t2, by rw [h2, h1, List.append_assoc]⟩

/-- The output log only ever grows: the log after processing more lines
extends the log written so far. -/
theorem runPipeline_append (cfg : Config) (ls₁ ls₂ : List PLine) :
    ∃ t, (runPipeline cfg (ls₁ ++ ls₂)).output
      = (runPipeline cfg ls₁).output ++ t := by
  unfold runPipeline
  rw [List.foldl_append]
  exact foldl_output_mono cfg ls₂ _

/-- Main loop characterization: when the resource log yields a
dictionary, no line parses to a non-object, and in every record the
symptoms field is absent or a string, the loop from any live state
appends exactly the expected decisions and never crashes. -/
theorem foldl_run_eq (cfg : Config) (r : List (String × Json))
    (hres : get_latest_resources cfg.resourceLog = .ok (.obj r)) :
    ∀ (ls : List PLine) (st : RunState), st.crashed = false →
      (∀ p, PLine.record p ∈ ls → symptomsOk p) →
      (∀ j, PLine.nonRecord j ∉ ls) →
      List.foldl (processLine cfg) st ls
        = ⟨st.output ++ expectedOutput cfg (.obj r) st.output.length ls, false⟩ := by
  intro ls
  induction ls with
  | nil =>
    intro st hc _ _
    show st = _
    rw [expectedOutput, List.append_nil]
    cases st with | mk o c => simp_all
  | cons l ls ih =>
    intro st hc hrec hnr
    rw [List.foldl_cons]
    cases l with
    | blank =>
      have hstep : processLine cfg st .blank = st := by
        unfold processLine; rw [hc]; rfl
      rw [hstep, expectedOutput]
      exact ih st hc (fun p hp => hrec p (List.mem_cons_of_mem _ hp))
        (fun j hj => hnr j (List.mem_cons_of_mem _ hj))
    | invalid raw =>
      have hstep : processLine cfg st (.invalid raw) = st := by
        unfold processLine; rw [hc]; rfl
      rw [hstep, expectedOutput]
      exact ih st hc (fun p hp => hrec p (List.mem_cons_of_mem _ hp))
        (fun j hj => hnr j (List.mem_cons_of_mem _ hj))
    | nonRecord j =>
      exact absurd (List.mem_cons_self _ _) (hnr j)
    | record p =>
      have hp : symptomsOk p := hrec p (List.mem_cons_self _ _)
      obtain ⟨d, hd⟩ := triage_ok p (get_guidelines cfg.guidelinesFile) r
        cfg.apiKey (cfg.svc st.output.length) hp
      have hstep : processLine cfg st (.record p)
          = ⟨st.output ++ [d], false⟩ := by
        unfold processLine
        rw [hc, hres]
        simp [hd]
      rw [hstep]
      have hlen : (st.output ++ [d]).length = st.output.length + 1 := by
        rw [List.length_append, List.length_singleton]
      have := ih ⟨st.output ++ [d], false⟩ rfl
        (fun q hq => hrec q (List.mem_cons_of_mem _ hq))
        (fun j hj => hnr j (List.mem_cons_of_mem _ hj))
      rw [this, expectedOutput]
      have hda : decisionAt cfg (.obj r) st.output.length p = d := by
        unfold decisionAt; rw [hd]
      show RunState.mk _ _ = _
      rw [hlen, hda, List.append_assoc, List.singleton_append]

/-- A line that fails to parse is skipped: the loop state is unchanged. -/
theorem processLine_invalid (cfg : Config) (st : RunState) (raw : String) :
    processLine cfg st (.invalid raw) = st := by
  cases st with
  | mk o c =>
    unfold processLine
    cases c
    · rfl
    · rfl

/-- A line that parses to a non-object raises an uncaught
`AttributeError`: the loop is dead from then on, keeping its output. -/
theorem processLine_nonRecord (cfg : Config) (st : RunState) (j : Json) :
    processLine cfg st (.nonRecord j) = ⟨st.output, true⟩ := by
  cases st with
  | mk o c =>
    unfold processLine
    cases c
    · rfl
    · rfl

/-- The keyword cascade always lands in one of its three rules. -/
theorem fallbackRules_cases (s : String) :
    fallbackRules s = ("Critical", "Fallback: Critical keywords detected in symptoms.", "Yes")
    ∨ fallbackRules s = ("Medium", "Fallback: Potential fracture detected.", "No")
    ∨ fallbackRules s = ("Low", "Fallback: Minor symptoms detected.", "No") := by
  unfold fallbackRules
  split
  · exact Or.inl rfl
  · split
    · exact Or.inr (Or.inl rfl)
    · exact Or.inr (Or.inr rfl)

/-- Rule 1 fires whenever `severe` occurs in the lowercased symptoms,
no matter what else occurs there. -/
theorem fallbackRules_severe (x : String) (h : strContains x "severe" = true) :
    fallbackRules x
      = ("Critical", "Fallback: Critical keywords detected in symptoms.", "Yes") := by
  have hcond : (strContains x "chest pain" || strContains x "severe"
      || strContains x "difficulty breathing") = true := by
    rw [h]
    simp
  unfold fallbackRules
  simp only [hcond]
  rfl

/-! ### Claim theorems -/

/-- C2 (amended): the resource-state reader returns the parse of the
last non-blank line of the log — the stored record when that line is
valid, a raised `JSONDecodeError` when it is malformed — and the empty
snapshot when the log is absent or holds no non-blank line. -/
theorem claim2_reader_last_nonblank :
    (get_latest_resources none = .ok (.obj []))
    ∧ (∀ lines, lastNonBlank lines = none
        → get_latest_resources (some lines) = .ok (.obj []))
    ∧ (∀ lines j, lastNonBlank lines = some (RLine.valid j)
        → get_latest_resources (some lines) = .ok j)
    ∧ (∀ lines raw, lastNonBlank lines = some (RLine.invalid raw)
        → get_latest_resources (some lines) = .error ()) := by
  refine ⟨rfl, ?_, ?_, ?_⟩
  · intro lines h
    show (match lastNonBlank lines with
      | none => Except.ok (Json.obj [])
      | some (RLine.valid j) => Except.ok j
      | some (RLine.invalid _) => Except.error ()
      | some RLine.blank => Except.error ()) = _
    rw [h]
  · intro lines j h
    show (match lastNonBlank lines with
      | none => Except.ok (Json.obj [])
      | some (RLine.valid j) => Except.ok j
      | some (RLine.invalid _) => Except.error ()
      | some RLine.blank => Except.error ()) = _
    rw [h]
  · intro lines raw h
    show (match lastNonBlank lines with
      | none => Except.ok (Json.obj [])
      | some (RLine.valid j) => Except.ok j
      | some (RLine.invalid _) => Except.error ()
      | some RLine.blank => Except.error ()) = _
    rw [h]

/-- C2 witness: on a log whose last non-blank line is a valid record
the reader returns that record; on a log ending in a malformed line it
raises. -/
theorem claim2_witness :
    get_latest_resources (some [RLine.valid (.num 7), RLine.blank]) = .ok (.num 7)
    ∧ get_latest_resources (some [RLine.invalid "x"]) = .error () :=
  ⟨claim2_reader_last_nonblank.2.2.1 [RLine.valid (.num 7), RLine.blank] (.num 7) rfl,
   claim2_reader_last_nonblank.2.2.2 [RLine.invalid "x"] "x" rfl⟩

/-- C2 counterexample: on a log with three valid snapshots followed by
one malformed line, the reader raises `JSONDecodeError` instead of
returning the third (last valid) snapshot. -/
theorem claim2_counterexample :
    get_latest_resources (some resLog3) = .error ()
    ∧ get_latest_resources (some resLog3)
        ≠ .ok (.obj [("icu_beds_available", .num 3)]) := by
  refine ⟨rfl, fun h => ?_⟩
  rw [show get_latest_resources (some resLog3) = .error () from rfl] at h
  exact Except.noConfusion h

/-- C5: the three concrete fallback vectors: "Broken thumb" yields
Medium with no ICU; "Asthma attack, difficulty breathing" yields
Critical, ICU, Urgent; "Mild cough" yields Low, no ICU, Normal. -/
theorem claim5_concrete_vectors :
    priorityOf (fallbackOutput patientBroken "LLM Error") = some (.str "Medium")
    ∧ icuRequiredOf (fallbackOutput patientBroken "LLM Error") = some (.str "No")
    ∧ priorityOf (fallbackOutput patientAsthma "LLM Error") = some (.str "Critical")
    ∧ icuRequiredOf (fallbackOutput patientAsthma "LLM Error") = some (.str "Yes")
    ∧ alertLevelOf (fallbackOutput patientAsthma "LLM Error") = some (.str "Urgent")
    ∧ priorityOf (fallbackOutput patientMild "LLM Error") = some (.str "Low")
    ∧ icuRequiredOf (fallbackOutput patientMild "LLM Error") = some (.str "No")
    ∧ alertLevelOf (fallbackOutput patientMild "LLM Error") = some (.str "Normal") :=
  ⟨rfl, rfl, rfl, rfl, rfl, rfl, rfl, rfl⟩

/-- C6 (amended): a line that fails to parse as JSON is skipped — the
run over any surrounding lines is unchanged — while a line that parses
to a JSON non-object halts the loop with an uncaught `AttributeError`,
freezing the output log and dropping all later lines. -/
theorem claim6_invalid_skipped_nonobject_crashes (cfg : Config)
    (ls₁ ls₂ : List PLine) (raw : String) (j : Json) :
    runPipeline cfg (ls₁ ++ PLine.invalid raw :: ls₂) = runPipeline cfg (ls₁ ++ ls₂)
    ∧ runPipeline cfg (ls₁ ++ PLine.nonRecord j :: ls₂)
        = ⟨(runPipeline cfg ls₁).output, true⟩ := by
  constructor
  · unfold runPipeline
    rw [List.foldl_append, List.foldl_append, List.foldl_cons, processLine_invalid]
  · unfold runPipeline
    rw [List.foldl_append, List.foldl_cons, processLine_nonRecord,
      foldl_crashed cfg ls₂ _ rfl]

/-- C6 counterexample: the JSON line `5` parses but is not a structured
patient record; the pipeline crashes on it and the valid record behind
it is never processed, producing no decision. -/
theorem claim6_counterexample :
    runPipeline cfgDown [PLine.nonRecord (Json.num 5), PLine.record patientBroken]
      = ⟨[], true⟩ := rfl

/-- C4: whenever the lowercased symptoms text contains `severe` —
whatever else it contains, `broken` and `fracture` included — the
fallback yields priority Critical with ICU required and the
rule-1 reasoning tag: rule 1 dominates rule 2. -/
theorem claim4_severe_dominates (p : List (String × Json)) (e s : String)
    (hsym : dictGet p "symptoms" = some (Json.str s))
    (hsev : strContains (pyLower s) "severe" = true) :
    fallbackRecord p e = .ok (fallbackJson p e (pyLower s))
    ∧ priorityOf (fallbackJson p e (pyLower s)) = some (.str "Critical")
    ∧ icuRequiredOf (fallbackJson p e (pyLower s)) = some (.str "Yes")
    ∧ ∃ suffix, reasoningOf (fallbackJson p e (pyLower s))
        = some (.str ("Fallback: Critical keywords detected in symptoms."
            ++ suffix)) := by
  have hrules := fallbackRules_severe (pyLower s) hsev
  refine ⟨(fallbackRecord_ok p e).2 s hsym, ?_, ?_, ?_⟩
  · rw [priorityOf_fallbackJson, hrules]
  · rw [icuRequiredOf_fallbackJson, hrules]
  · refine ⟨" (Auto-generated due to LLM Error: " ++ (pyTake e 50 ++ "...)"), ?_⟩
    rw [reasoningOf_fallbackJson, hrules]
    rw [String.append_assoc, String.append_assoc]

/-- C4 witness: symptoms "SEVERE headache, broken arm" (uppercase
trigger plus a rule-2 keyword) still classifies as Critical with ICU
and the rule-1 tag. -/
theorem claim4_witness :
    priorityOf (fallbackOutput patientSevere "Request timed out") = some (.str "Critical")
    ∧ icuRequiredOf (fallbackOutput patientSevere "Request timed out") = some (.str "Yes") := by
  have h := claim4_severe_dominates patientSevere "Request timed out"
    "SEVERE headache, broken arm" rfl (by decide)
  have hout : fallbackOutput patientSevere "Request timed out"
      = fallbackJson patientSevere "Request timed out"
        (pyLower "SEVERE headache, broken arm") := by
    unfold fallbackOutput
    rw [h.1]
  rw [hout]
  exact ⟨h.2.1, h.2.2.1⟩

/-- C9: fallback keyword matching is plain substring containment on the
lowercased symptoms string — any occurrence of `severe`, word boundary
or not, classifies the patient Critical. -/
theorem claim9_substring_containment (p : List (String × Json)) (e s : String)
    (hsym : dictGet p "symptoms" = some (Json.str s))
    (hsub : strContains (pyLower s) "severe" = true) :
    fallbackRecord p e = .ok (fallbackJson p e (pyLower s))
    ∧ priorityOf (fallbackJson p e (pyLower s)) = some (.str "Critical") := by
  have hrules := fallbackRules_severe (pyLower s) hsub
  refine ⟨(fallbackRecord_ok p e).2 s hsym, ?_⟩
  rw [priorityOf_fallbackJson, hrules]

/-- C9 witness: `severe` occurs in "Patient persevered through the
night" only inside the word "persevered", yet the patient is
classified Critical. -/
theorem claim9_witness :
    priorityOf (fallbackOutput patientPersevered "timeout") = some (.str "Critical") := by
  have h := claim9_substring_containment patientPersevered "timeout"
    "Patient persevered through the night" rfl (by decide)
  have hout : fallbackOutput patientPersevered "timeout"
      = fallbackJson patientPersevered "timeout"
        (pyLower "Patient persevered through the night") := by
    unfold fallbackOutput
    rw [h.1]
  rw [hout]
  exact h.2

/-- C10: on any patient whose symptoms field is absent or a string, the
fallback returns a schema-conforming decision without raising — the
presence of name or patient_id is never required — and when the
symptoms field is absent it is treated as the empty string, yielding
priority Low with no ICU. -/
theorem claim10_fallback_total (p : List (String × Json)) (e : String) :
    (symptomsOk p → ∃ r, fallbackRecord p e = .ok r ∧ hasTriageSchema r = true)
    ∧ (dictGet p "symptoms" = none →
        fallbackRecord p e = .ok (fallbackJson p e "")
        ∧ priorityOf (fallbackJson p e "") = some (.str "Low")
        ∧ icuRequiredOf (fallbackJson p e "") = some (.str "No")
        ∧ hasTriageSchema (fallbackJson p e "") = true) := by
  constructor
  · intro hs
    obtain ⟨r, hr⟩ := fallbackRecord_isOk p e hs
    obtain ⟨s, rfl⟩ := fallbackRecord_shape p e r hr
    exact ⟨_, hr, hasTriageSchema_fallbackJson p e s⟩
  · intro hn
    exact ⟨(fallbackRecord_ok p e).1 hn, rfl, rfl,
      hasTriageSchema_fallbackJson p e ""⟩

/-- C10 witness: the empty patient dictionary — no symptoms, no name,
no patient_id — still gets a complete Low-priority decision. -/
theorem claim10_witness :
    fallbackRecord ([] : List (String × Json)) "E" = .ok (fallbackJson [] "E" "")
    ∧ priorityOf (fallbackJson [] "E" "") = some (.str "Low")
    ∧ icuRequiredOf (fallbackJson [] "E" "") = some (.str "No")
    ∧ hasTriageSchema (fallbackJson [] "E" "") = true :=
  (claim10_fallback_total [] "E").2 rfl

/-- C7: in every fallback decision of a named patient, the alert level
is Urgent exactly when the priority is Critical and Normal otherwise,
and the alert message contains the patient name and states that
fallback mode was used. -/
theorem claim7_alert_level_and_message (p : List (String × Json)) (e : String)
    (r : Json) (s : String)
    (hok : fallbackRecord p e = .ok r)
    (hname : dictGet p "name" = some (Json.str s)) :
    (alertLevelOf r = some (.str "Urgent") ↔ priorityOf r = some (.str "Critical"))
    ∧ (priorityOf r ≠ some (.str "Critical")
        → alertLevelOf r = some (.str "Normal"))
    ∧ ∃ msg, alertMessageOf r = some (.str msg)
        ∧ strContains msg s = true
        ∧ strContains msg "Fallback mode used" = true := by
  obtain ⟨sym, rfl⟩ := fallbackRecord_shape p e r hok
  refine ⟨?_, ?_, ?_⟩
  · rw [alertLevelOf_fallbackJson, priorityOf_fallbackJson]
    rcases fallbackRules_cases sym with h | h | h <;>
      rw [h] <;> simp only [Option.some.injEq, Json.str.injEq] <;> decide
  · intro hne
    rw [alertLevelOf_fallbackJson]
    rcases fallbackRules_cases sym with h | h | h
    · exact absurd (by rw [priorityOf_fallbackJson, h]) hne
    · rw [h]
      simp only [Option.some.injEq, Json.str.injEq]
      decide
    · rw [h]
      simp only [Option.some.injEq, Json.str.injEq]
      decide
  · refine ⟨"System Alert: Fallback mode used for " ++ s, ?_, ?_, ?_⟩
    · rw [alertMessageOf_fallbackJson, hname]
      rfl
    · exact strContains_suf _ _
    · exact strContains_ext _ _ _ (by decide)

/-- C7 witness: a Low-priority fallback decision for a patient named
Dan carries alert level Normal and a message naming Dan and citing
fallback mode. -/
theorem claim7_witness :
    alertLevelOf (fallbackOutput patientMild "oops") = some (.str "Normal")
    ∧ strContains "System Alert: Fallback mode used for Dan" "Dan" = true := by
  have h := claim7_alert_level_and_message patientMild "oops"
    (fallbackOutput patientMild "oops") "Dan" rfl rfl
  constructor
  · refine h.2.1 (fun hc => ?_)
    rw [show priorityOf (fallbackOutput patientMild "oops")
        = some (Json.str "Low") from rfl] at hc
    simp only [Option.some.injEq, Json.str.injEq] at hc
    exact absurd hc (by decide)
  · obtain ⟨msg, hmsg, hs, _⟩ := h.2.2
    rw [show alertMessageOf (fallbackOutput patientMild "oops")
        = some (Json.str "System Alert: Fallback mode used for Dan") from rfl] at hmsg
    simp only [Option.some.injEq, Json.str.injEq] at hmsg
    subst hmsg
    exact hs

/-- C8 (amended): the fallback engine is a deterministic function of
the patient_id, name and symptoms fields together with the
failure reason — it reads nothing else (no vitals, labs, extra fields,
or hidden state). -/
theorem claim8_pure_function (p₁ p₂ : List (String × Json)) (e : String)
    (hid : dictGet p₁ "patient_id" = dictGet p₂ "patient_id")
    (hname : dictGet p₁ "name" = dictGet p₂ "name")
    (hsym : dictGet p₁ "symptoms" = dictGet p₂ "symptoms") :
    fallbackRecord p₁ e = fallbackRecord p₂ e := by
  unfold fallbackRecord
  rw [hsym]
  cases hs : pyStrLower ((dictGet p₂ "symptoms").getD (.str "")) with
  | error u => rfl
  | ok s =>
    show Except.ok (fallbackJson p₁ e s) = Except.ok (fallbackJson p₂ e s)
    unfold fallbackJson
    rw [hid, hname]

/-- C8 witness: extra vitals and labs fields do not change the fallback
decision. -/
theorem claim8_witness :
    fallbackRecord patientExtra "E" = fallbackRecord patientPlain "E" :=
  claim8_pure_function patientExtra patientPlain "E" rfl rfl rfl

/-- C8 counterexample: two patients with identical symptoms and
identical failure reason receive different decisions (the records name
different patients), so the decision is not a function of
(symptoms, failureReason) alone. -/
theorem claim8_counterexample :
    dictGet patientAliceMild "symptoms" = dictGet patientBobMild "symptoms"
    ∧ fallbackRecord patientAliceMild "E" ≠ fallbackRecord patientBobMild "E" := by
  refine ⟨rfl, fun h => ?_⟩
  have h2 : alertMessageOf (fallbackOutput patientAliceMild "E")
      = alertMessageOf (fallbackOutput patientBobMild "E") := by
    unfold fallbackOutput
    rw [h]
  rw [show alertMessageOf (fallbackOutput patientAliceMild "E")
      = some (Json.str "System Alert: Fallback mode used for Alice") from rfl,
    show alertMessageOf (fallbackOutput patientBobMild "E")
      = some (Json.str "System Alert: Fallback mode used for Bob") from rfl] at h2
  simp only [Option.some.injEq, Json.str.injEq] at h2
  exact absurd h2 (by decide)

/-- The missing-credential error record bears no fallback marker and
does not satisfy the TriageDecision schema. -/
theorem missingKeyRecord_not_fallback (p : List (String × Json)) :
    bearsFallbackMarker (missingKeyRecord p) = false
    ∧ hasTriageSchema (missingKeyRecord p) = false := ⟨rfl, rfl⟩

/-- C1 (amended): in a run with no configured credential, every emitted
record is the `\x7b"error", "patient_id"\x7d` record — it bears no
fallback marker and does not satisfy the TriageDecision schema; in a
run with a configured credential whose every reasoning call raises,
every emitted decision comes from the fallback path, bears the
fallback marker, and satisfies the TriageDecision schema. -/
theorem claim1_fallback_on_unreachable (cfg : Config) (lines : List PLine) :
    (pyFalsyStr cfg.apiKey = true →
      ∀ d ∈ (runPipeline cfg lines).output,
        bearsFallbackMarker d = false ∧ hasTriageSchema d = false)
    ∧ ((pyFalsyStr cfg.apiKey = false
          ∧ ∀ n prompt, ∃ m, cfg.svc n prompt = CallOutcome.raises m) →
      ∀ d ∈ (runPipeline cfg lines).output,
        bearsFallbackMarker d = true ∧ hasTriageSchema d = true) := by
  constructor
  · intro hkey d hd
    refine @foldl_output_all
      (fun j => bearsFallbackMarker j = false ∧ hasTriageSchema j = false)
      cfg ?_ lines ⟨[], false⟩
      (fun x hx => absurd hx (List.not_mem_nil x)) d hd
    intro p n res d hres ht
    cases hb : buildPrompt p (get_guidelines cfg.guidelinesFile) res with
    | error u =>
      unfold triage_patient at ht
      rw [hb] at ht
      exact absurd ht (by simp)
    | ok prompt =>
      unfold triage_patient at ht
      rw [hb, hkey] at ht
      change Except.ok (missingKeyRecord p) = Except.ok d at ht
      rw [Except.ok.injEq] at ht
      subst ht
      exact missingKeyRecord_not_fallback p
  · rintro ⟨hkey, hsvc⟩
    intro d hd
    refine @foldl_output_all
      (fun j => bearsFallbackMarker j = true ∧ hasTriageSchema j = true)
      cfg ?_ lines ⟨[], false⟩
      (fun x hx => absurd hx (List.not_mem_nil x)) d hd
    intro p n res d hres ht
    cases hb : buildPrompt p (get_guidelines cfg.guidelinesFile) res with
    | error u =>
      unfold triage_patient at ht
      rw [hb] at ht
      exact absurd ht (by simp)
    | ok prompt =>
      unfold triage_patient at ht
      rw [hb, hkey] at ht
      change (match cfg.svc n prompt with
        | CallOutcome.returns j => Except.ok j
        | CallOutcome.raises errMsg => fallbackRecord p errMsg)
          = Except.ok d at ht
      obtain ⟨m, hm⟩ := hsvc n prompt
      rw [hm] at ht
      change fallbackRecord p m = Except.ok d at ht
      obtain ⟨s, rfl⟩ := fallbackRecord_shape p m d ht
      exact ⟨bearsFallbackMarker_fallbackJson p m s,
        hasTriageSchema_fallbackJson p m s⟩

/-- C1 witness: a run over two patients with a configured key and an
always-unreachable service emits only marked, schema-conforming
fallback decisions. -/
theorem claim1_witness :
    (runPipeline cfgDown
        [PLine.record patientSevere, PLine.record patientMild]).output.all
      (fun d => bearsFallbackMarker d && hasTriageSchema d) = true := by
  rw [List.all_eq_true]
  intro d hd
  have h := (claim1_fallback_on_unreachable cfgDown
    [PLine.record patientSevere, PLine.record patientMild]).2
    ⟨rfl, fun n prompt => ⟨"Connection error: quota exceeded", rfl⟩⟩ d hd
  show (bearsFallbackMarker d && hasTriageSchema d) = true
  rw [Bool.and_eq_true]
  exact h

/-- C1 counterexample: a patient record processed while no credential
is configured yields the error record, which bears no fallback marker
and does not satisfy the TriageDecision schema — the decision is not
produced by the fallback path. -/
theorem claim1_counterexample :
    (runPipeline ⟨none, none, none, svcDown⟩ [PLine.record patientSevere]).output
        = [missingKeyRecord patientSevere]
    ∧ bearsFallbackMarker (missingKeyRecord patientSevere) = false
    ∧ hasTriageSchema (missingKeyRecord patientSevere) = false := ⟨rfl, rfl, rfl⟩

/-- C3 (amended): when the resource log resolves to a dictionary
snapshot, every line parses to an object or fails to parse as JSON,
and each symptoms field among the records is absent or a string, the run
appends exactly one decision per patient-record line, in reading
order (`expectedOutput`), and never crashes; unconditionally, the
output log is append-only — processing further lines only ever
extends it. -/
theorem claim3_one_decision_per_record (cfg : Config) (lines : List PLine)
    (r : List (String × Json))
    (hres : get_latest_resources cfg.resourceLog = .ok (.obj r))
    (hrec : ∀ p, PLine.record p ∈ lines → symptomsOk p)
    (hnr : ∀ j, PLine.nonRecord j ∉ lines) :
    (runPipeline cfg lines).output = expectedOutput cfg (.obj r) 0 lines
    ∧ (runPipeline cfg lines).crashed = false
    ∧ ∀ ls₁ ls₂, ∃ t, (runPipeline cfg (ls₁ ++ ls₂)).output
        = (runPipeline cfg ls₁).output ++ t := by
  have h := foldl_run_eq cfg r hres lines ⟨[], false⟩ rfl hrec hnr
  refine ⟨?_, ?_, fun ls₁ ls₂ => runPipeline_append cfg ls₁ ls₂⟩
  · show (List.foldl (processLine cfg) ⟨[], false⟩ lines).output = _
    rw [h]
    show [] ++ expectedOutput cfg (.obj r) (List.length []) lines = _
    rw [List.nil_append]
    rfl
  · show (List.foldl (processLine cfg) ⟨[], false⟩ lines).crashed = false
    rw [h]

/-- C3 witness: a run over two valid records and one malformed line
emits exactly the two decisions, in order, and does not crash. -/
theorem claim3_witness :
    (runPipeline cfgLive linesLive).output
        = expectedOutput cfgLive (.obj resSnap) 0 linesLive
    ∧ (runPipeline cfgLive linesLive).crashed = false := by
  have h := claim3_one_decision_per_record cfgLive linesLive resSnap rfl
    ?_ ?_
  · exact ⟨h.1, h.2.1⟩
  · intro p hp
    simp [linesLive] at hp
    rcases hp with rfl | rfl
    · exact Or.inr ⟨"Broken thumb", rfl⟩
    · exact Or.inr ⟨"Mild cough", rfl⟩
  · intro j hj
    simp [linesLive] at hj

/-- C3 counterexample: when the last line of the resource log is malformed,
a valid patient record is read and processed but no decision record is
ever appended for it — the caught `JSONDecodeError` silently skips the
patient, violating one-decision-per-record. -/
theorem claim3_counterexample :
    (runPipeline cfgBadRes [PLine.record patientBroken]).output = []
    ∧ (runPipeline cfgBadRes [PLine.record patientBroken]).crashed = false :=
  ⟨rfl, rfl⟩

end Triage
